import Mathlib

/-!
Shallow embedding of the client-side synchronization core
(`SyncService.js` and the polling backend) of a collaborative
text editor.  Steps are opaque payloads, modelled by a type
parameter `σ`.  Times are integers in milliseconds.
-/

namespace TextSync

/-- Idle threshold in minutes (`IDLE_TIMEOUT`). -/
def IDLE_TIMEOUT : ℚ := 1440

/-- Base refetch cadence in ms (`FETCH_INTERVAL`). -/
def FETCH_INTERVAL : ℤ := 300

/-- Maximum refetch cadence in ms (`FETCH_INTERVAL_MAX`). -/
def FETCH_INTERVAL_MAX : ℤ := 5000

/-- Single-editor cadence in ms (`FETCH_INTERVAL_SINGLE_EDITOR`). -/
def FETCH_INTERVAL_SINGLE_EDITOR : ℤ := 5000

/-- Cadence while the window is invisible (`FETCH_INTERVAL_INVISIBLE`). -/
def FETCH_INTERVAL_INVISIBLE : ℤ := 60000

/-- Autosave interval in ms (`AUTOSAVE_INTERVAL`). -/
def AUTOSAVE_INTERVAL : ℤ := 30000

/-- Maximum number of retries for fetching before emitting a
connection error (`MAX_RETRY_FETCH_COUNT`). -/
def MAX_RETRY_FETCH_COUNT : ℕ := 5

/-- Timeout for sessions to be marked as disconnected:
`FETCH_INTERVAL_INVISIBLE * 1.5`. -/
def COLLABORATOR_DISCONNECT_TIME : ℤ := 90000

/-- The error taxonomy (`ERROR_TYPE`). -/
inductive ErrorType
  | SAVE_COLLISSION
  | PUSH_FAILURE
  | LOAD_ERROR
  | CONNECTION_FAILED
  | SOURCE_NOT_FOUND
deriving DecidableEq, Repr

/-- Observable effects on the event bus (plus the host-level
transient user notice shown by `OC.Notification.showTemporary`).
The `sync` event records the number of newly applied steps and the
version it carries. -/
inductive Event
  | opened
  | loaded
  | change
  | save
  | sync (numSteps : ℕ) (version : ℤ)
  | stateChangeDirty (dirty : Bool)
  | stateChangeInitialLoading
  | error (t : ErrorType)
  | idle
  | notice
deriving DecidableEq, Repr

/-- One step bucket of a sync response:
`{version, sessionId, data}`.  `data = none` models a payload that
is not an array (`!Array.isArray(singleSteps)`). -/
structure StepsBucket (σ : Type) where
  version : ℤ
  sessionId : ℤ
  data : Option (List σ)
deriving DecidableEq, Repr

/-- The mutable state of the sync service that the claims are
about: the step log, the parallel client-id log, the document
version and the time of the last step push. -/
structure SyncState (σ : Type) where
  steps : List σ
  stepClientIDs : List ℤ
  version : ℤ
  lastStepPush : ℤ
deriving DecidableEq, Repr

/-- Processing of one bucket inside the `_receiveSteps` loop:
version is advanced first when the bucket version is higher, then
the payload is validated; a valid payload is appended to the step
log and paired with the bucket's `sessionId` in the `newSteps`
accumulator. -/
def receiveBucket (s : SyncState σ) (b : StepsBucket σ) :
    SyncState σ × List (σ × ℤ) :=
  let s1 := if s.version < b.version then { s with version := b.version } else s
  match b.data with
  | none => (s1, [])
  | some l =>
    ({ s1 with steps := s1.steps ++ l }, l.map (fun st => (st, b.sessionId)))

/-- The bucket loop of `_receiveSteps`, accumulating the
`newSteps` list. -/
def receiveAll (s : SyncState σ) : List (StepsBucket σ) →
    SyncState σ × List (σ × ℤ)
  | [] => (s, [])
  | b :: bs =>
    let p := receiveBucket s b
    let q := receiveAll p.1 bs
    (q.1, p.2 ++ q.2)

/-- `_receiveSteps({steps, document})`: run the bucket loop, stamp
`lastStepPush` with the current time, and emit `sync` with the
newly applied steps and the version. -/
def receiveSteps (s : SyncState σ) (buckets : List (StepsBucket σ))
    (now : ℤ) : SyncState σ × List (σ × ℤ) × List Event :=
  let p := receiveAll s buckets
  ({ p.1 with lastStepPush := now }, p.2,
    [Event.sync p.2.length p.1.version])

/-- `stepsSince(version)`: slices of the step log and the
client-id log from `version` onward. -/
def stepsSince (s : SyncState σ) (version : ℕ) : List σ × List ℤ :=
  (s.steps.drop version, s.stepClientIDs.drop version)

/-- `checkIdle()`: true and an `idle` event iff the last step push
was more than `IDLE_TIMEOUT` minutes ago. -/
def checkIdle (s : SyncState σ) (now : ℤ) : Bool × List Event :=
  let lastPushMinutesAgo : ℚ := ((now - s.lastStepPush : ℤ) : ℚ) / 1000 / 60
  if lastPushMinutesAgo > IDLE_TIMEOUT then (true, [Event.idle])
  else (false, [])

/-- A transport error as seen by the service: an optional response
and an optional error code (`ECONNABORTED` marks an aborted
request). -/
structure ApiError where
  hasResponse : Bool
  code : Option String
deriving DecidableEq, Repr

/-- `_emitError(error)`: CONNECTION_FAILED when there is no
response or the request was aborted, LOAD_ERROR otherwise. -/
def emitError (e : ApiError) : List Event :=
  if !e.hasResponse || e.code == some "ECONNABORTED" then
    [Event.error ErrorType.CONNECTION_FAILED]
  else
    [Event.error ErrorType.LOAD_ERROR]

/-- The slice of the `Connection` object that `open` reads. -/
structure Connection where
  lastSavedVersion : ℤ
deriving DecidableEq, Repr

/-- Outcome of `open`: either the updated state together with the
emitted events, or an uncaught exception that rejects the returned
promise (listing the events emitted before the throw). -/
inductive OpenOutcome (σ : Type)
  | ok (s : SyncState σ) (events : List Event)
  | thrown (events : List Event)
deriving DecidableEq, Repr

/-- `open({fileId})` for the path going through `_api.open`: a
rejected open is caught by `_emitError`, which returns `undefined`,
so `this.connection` becomes `undefined` and the following read of
`this.connection.lastSavedVersion` throws a TypeError, rejecting
the async `open`. -/
def openService (s : SyncState σ) (apiResult : Except ApiError Connection) :
    OpenOutcome σ :=
  match apiResult with
  | Except.error e => OpenOutcome.thrown (emitError e)
  | Except.ok c =>
    OpenOutcome.ok { s with version := c.lastSavedVersion }
      [Event.opened, Event.loaded]

/-- The `document` part of a 403 push-failure payload. -/
structure PushDoc where
  currentVersion : ℤ
deriving DecidableEq, Repr

/-- The response attached to a push failure: `status` is the HTTP
status, `document` is `data.document` (absent when the payload has
no document). -/
structure PushResponse where
  status : ℤ
  document : Option PushDoc
deriving DecidableEq, Repr

/-- A push failure as destructured by the `catch` of `sendSteps`. -/
structure PushError where
  response : Option PushResponse
  code : Option String
deriving DecidableEq, Repr

/-- The `catch` handler of `sendSteps`, given the local document
version: no response or aborted emits CONNECTION_FAILED; on 403,
a missing document is only logged, and a document whose
`currentVersion` equals the local version emits PUSH_FAILURE plus
a transient user notice. -/
def sendStepsCatch (version : ℤ) (e : PushError) : List Event :=
  match e.response with
  | none => [Event.error ErrorType.CONNECTION_FAILED]
  | some r =>
    if e.code == some "ECONNABORTED" then
      [Event.error ErrorType.CONNECTION_FAILED]
    else if r.status = 403 then
      match r.document with
      | none => []
      | some d =>
        if d.currentVersion = version then
          [Event.error ErrorType.PUSH_FAILURE, Event.notice]
        else []
    else []

/-- The mutable state of the polling backend. -/
structure BackendState where
  fetchInterval : ℤ
  fetchRetryCounter : ℕ
  lastSave : ℤ
  initialLoadingFinished : Bool
  forcedSave : Bool
  connected : Bool
deriving DecidableEq, Repr

/-- `resetRefetchTimer()`. -/
def resetRefetchTimer (b : BackendState) : BackendState :=
  { b with fetchInterval := FETCH_INTERVAL }

/-- `increaseRefetchTimer()`. -/
def increaseRefetchTimer (b : BackendState) : BackendState :=
  { b with fetchInterval := min (b.fetchInterval * 2) FETCH_INTERVAL_MAX }

/-- `maximumRefetchTimer()`. -/
def maximumRefetchTimer (b : BackendState) : BackendState :=
  { b with fetchInterval := FETCH_INTERVAL_SINGLE_EDITOR }

/-- `disconnect()` (modulo the host timer handle). -/
def disconnectBackend (b : BackendState) : BackendState :=
  { b with connected := false }

/-- The response attached to a fetch failure. -/
structure FetchErrResponse where
  status : ℤ
deriving DecidableEq, Repr

/-- A fetch failure as seen by `_handleError`. -/
structure FetchError where
  response : Option FetchErrResponse
  code : Option String
deriving DecidableEq, Repr

/-- Status-code classification inside `_handleError`, reached when
a response is present and the request was not aborted. -/
def handleErrorStatus (b : BackendState) (r : FetchErrResponse) :
    BackendState × List Event :=
  if r.status = 409 then
    (disconnectBackend b, [Event.error ErrorType.SAVE_COLLISSION])
  else if r.status = 403 then
    (disconnectBackend b, [Event.error ErrorType.SOURCE_NOT_FOUND])
  else if r.status = 404 then
    (disconnectBackend b, [Event.error ErrorType.SOURCE_NOT_FOUND])
  else if r.status = 503 then
    (increaseRefetchTimer b, [Event.error ErrorType.CONNECTION_FAILED])
  else
    (disconnectBackend b, [Event.error ErrorType.CONNECTION_FAILED])

/-- The no-response / aborted branch of `_handleError`:
`if (this.#fetchRetryCounter++ >= MAX_RETRY_FETCH_COUNT)` —
the old counter value is compared, then the counter is
incremented. -/
def handleErrorNetwork (b : BackendState) : BackendState × List Event :=
  if b.fetchRetryCounter ≥ MAX_RETRY_FETCH_COUNT then
    ({ b with fetchRetryCounter := b.fetchRetryCounter + 1 },
      [Event.error ErrorType.CONNECTION_FAILED])
  else
    ({ b with fetchRetryCounter := b.fetchRetryCounter + 1 }, [])

/-- `_handleError(e)`. -/
def handleError (b : BackendState) (e : FetchError) :
    BackendState × List Event :=
  match e.response with
  | none => handleErrorNetwork b
  | some r =>
    if e.code == some "ECONNABORTED" then handleErrorNetwork b
    else handleErrorStatus b r

/-- A run of consecutive fetch failures with no intervening
response, folding `_handleError` and collecting the emitted
events. -/
def runFailures (b : BackendState) : List FetchError →
    BackendState × List Event
  | [] => (b, [])
  | e :: es =>
    let p := handleError b e
    let q := runFailures p.1 es
    (q.1, p.2 ++ q.2)

/-- A collaborator entry of a sync response; `lastContact` is in
seconds. -/
structure Session where
  lastContact : ℤ
deriving DecidableEq, Repr

/-- The document metadata of a sync response. -/
structure DocMeta where
  lastSavedVersion : ℤ
  lastSavedVersionTime : ℤ
deriving DecidableEq, Repr

/-- The payload of a successful sync response. -/
structure SyncResponse (σ : Type) where
  document : DocMeta
  sessions : List Session
  steps : List (StepsBucket σ)
deriving DecidableEq, Repr

/-- The collaborators considered alive:
`sessions.filter((s) => s.lastContact * 1000 > disconnect)` with
`disconnect = Date.now() - COLLABORATOR_DISCONNECT_TIME`. -/
def aliveSessions (sessions : List Session) (now : ℤ) : List Session :=
  sessions.filter (fun s =>
    s.lastContact * 1000 > now - COLLABORATOR_DISCONNECT_TIME)

/-- The combined state touched by `_handleResponse`. -/
structure FullState (σ : Type) where
  sync : SyncState σ
  backend : BackendState
deriving DecidableEq, Repr

/-- `_handleResponse({data})`: reset the retry counter, emit `save`
when the server's saved version is ahead, always emit `change`;
with zero steps, finish initial loading, stop if idle, otherwise
recompute the cadence from the alive-collaborator count and emit
the two `stateChange` events; with steps, apply them via
`_receiveSteps`, clear the forced-save flag and reset the cadence
once past initial loading. -/
def handleResponse (st : FullState σ) (r : SyncResponse σ) (now : ℤ) :
    FullState σ × List Event :=
  let b0 := { st.backend with fetchRetryCounter := 0 }
  let saved := st.sync.version < r.document.lastSavedVersion
  let b1 := if saved then { b0 with lastSave := r.document.lastSavedVersionTime }
    else b0
  let evs0 := (if saved then [Event.save] else []) ++ [Event.change]
  if r.steps.isEmpty then
    let b2 := if !b1.initialLoadingFinished then
        { b1 with initialLoadingFinished := true,
                  lastSave := r.document.lastSavedVersionTime }
      else b1
    let ci := checkIdle st.sync now
    if ci.1 then
      ({ sync := st.sync, backend := b2 }, evs0 ++ ci.2)
    else
      let alive := aliveSessions r.sessions now
      let b3 := if alive.length < 2 then maximumRefetchTimer b2
        else increaseRefetchTimer b2
      ({ sync := st.sync, backend := b3 },
        evs0 ++ ci.2 ++ [Event.stateChangeDirty false,
          Event.stateChangeInitialLoading])
  else
    let p := receiveSteps st.sync r.steps now
    let b2 := { b1 with forcedSave := false }
    let b3 := if b2.initialLoadingFinished then resetRefetchTimer b2 else b2
    ({ sync := p.1, backend := b3 }, evs0 ++ p.2.2)

/-- How a settled promise settled. -/
inductive Settle
  | resolve
  | reject
deriving DecidableEq, Repr

/-- The result of the promise returned by `close()`: how it
settled and at what time (ms after the call). -/
structure CloseResult where
  settled : Option Settle
  atMs : ℤ
deriving DecidableEq, Repr

/-- The `save`-event handler registered by `close()`:
`this._close().then(() => { closed = true; resolve() })
.catch(() => resolve())`.  Returns the new `closed` flag and the
settle call made. -/
def closeOnSave (closeResult : Except String Unit) : Bool × Settle :=
  match closeResult with
  | Except.ok _ => (true, Settle.resolve)
  | Except.error _ => (false, Settle.resolve)

/-- The 2000 ms timeout handler of `close()`: when not yet closed,
`this._close().then(() => resolve()).catch(() => resolve())`. -/
def closeOnTimeout (closed : Bool) (closeResult : Except String Unit) :
    Option Settle :=
  if closed then none
  else
    match closeResult with
    | Except.ok _ => some Settle.resolve
    | Except.error _ => some Settle.resolve

/-- `close()`: the promise executor races the `save`-event handler
(firing at `saveAt`, when a `save` event is ever emitted) against
the 2000 ms timeout; the first settle call wins.  `closeResult` is
the outcome of the underlying `connection.close()`. -/
def closeService (saveAt : Option ℤ) (closeResult : Except String Unit) :
    CloseResult :=
  match saveAt with
  | some t =>
    if t < 2000 then
      let p := closeOnSave closeResult
      { settled := some p.2, atMs := t }
    else
      match closeOnTimeout false closeResult with
      | some s => { settled := some s, atMs := 2000 }
      | none =>
        let p := closeOnSave closeResult
        { settled := some p.2, atMs := t }
  | none =>
    match closeOnTimeout false closeResult with
    | some s => { settled := some s, atMs := 2000 }
    | none => { settled := none, atMs := 2000 }

/-! ### Helper lemmas about the `_receiveSteps` loop -/

lemma receiveBucket_stepClientIDs (s : SyncState σ) (b : StepsBucket σ) :
    (receiveBucket s b).1.stepClientIDs = s.stepClientIDs := by
  unfold receiveBucket
  cases b.data <;> split <;> rfl

lemma receiveBucket_steps (s : SyncState σ) (b : StepsBucket σ) :
    (receiveBucket s b).1.steps
      = s.steps ++ (receiveBucket s b).2.map Prod.fst := by
  unfold receiveBucket
  cases b.data <;> split <;> simp [Function.comp_def]

lemma receiveBucket_version (s : SyncState σ) (b : StepsBucket σ) :
    (receiveBucket s b).1.version = max s.version b.version := by
  unfold receiveBucket
  cases b.data <;> split <;> rename_i h <;> simp <;> omega

lemma receiveBucket_lastStepPush (s : SyncState σ) (b : StepsBucket σ) :
    (receiveBucket s b).1.lastStepPush = s.lastStepPush := by
  unfold receiveBucket
  cases b.data <;> split <;> rfl

lemma receiveBucket_length (s : SyncState σ) (b : StepsBucket σ) :
    (receiveBucket s b).1.steps.length
      = s.steps.length + (b.data.map List.length).getD 0 := by
  unfold receiveBucket
  cases b.data <;> split <;> simp

lemma receiveAll_stepClientIDs (s : SyncState σ) (bs : List (StepsBucket σ)) :
    (receiveAll s bs).1.stepClientIDs = s.stepClientIDs := by
  induction bs generalizing s with
  | nil => rfl
  | cons b bs ih =>
    simp only [receiveAll, ih, receiveBucket_stepClientIDs]

lemma receiveAll_steps (s : SyncState σ) (bs : List (StepsBucket σ)) :
    (receiveAll s bs).1.steps = s.steps ++ (receiveAll s bs).2.map Prod.fst := by
  induction bs generalizing s with
  | nil => simp [receiveAll]
  | cons b bs ih =>
    simp only [receiveAll, List.map_append, ih, receiveBucket_steps,
      List.append_assoc]

lemma receiveAll_version (s : SyncState σ) (bs : List (StepsBucket σ)) :
    (receiveAll s bs).1.version
      = bs.foldl (fun v b => max v b.version) s.version := by
  induction bs generalizing s with
  | nil => rfl
  | cons b bs ih =>
    simp only [receiveAll, List.foldl_cons, ih, receiveBucket_version]

lemma receiveAll_length (s : SyncState σ) (bs : List (StepsBucket σ)) :
    (receiveAll s bs).1.steps.length
      = s.steps.length + ((bs.filterMap StepsBucket.data).map List.length).sum := by
  induction bs generalizing s with
  | nil => simp [receiveAll]
  | cons b bs ih =>
    simp only [receiveAll, ih, receiveBucket_length, List.filterMap_cons]
    cases h : b.data <;> (simp [h]; try omega)

lemma version_le_foldl_max (v : ℤ) (bs : List (StepsBucket σ)) :
    v ≤ bs.foldl (fun w b => max w b.version) v := by
  induction bs generalizing v with
  | nil => simp
  | cons b bs ih =>
    simp only [List.foldl_cons]
    exact le_trans (le_max_left v b.version) (ih (max v b.version))

/-! ### Claim theorems about `_receiveSteps` -/

/-- C1, counterexample: after `_receiveSteps` applies one valid
bucket containing one step, the step log has length 1 while
`stepClientIDs` still has length 0 — the two logs do not have
equal length, because the loop never appends to
`this.stepClientIDs`. -/
theorem receiveSteps_clientIDs_length_counterexample :
    ¬ ((receiveSteps (⟨[], [], 0, 0⟩ : SyncState ℕ) [⟨1, 7, some [42]⟩] 0).1.steps.length
        = (receiveSteps (⟨[], [], 0, 0⟩ : SyncState ℕ) [⟨1, 7, some [42]⟩] 0).1.stepClientIDs.length) := by
  decide

/-- C1, amended: `_receiveSteps` never touches `stepClientIDs`
(which therefore keeps its initial empty value for the service's
lifetime); each appended step is instead paired with its bucket's
`sessionId` only in the `newSteps` list carried by the emitted
`sync` event, and the step log grows exactly by the first
components of that list.  `stepsSince` consequently returns a
steps slice and a client-id slice that are in general of different
lengths. -/
theorem receiveSteps_clientIDs_unchanged (s : SyncState σ)
    (buckets : List (StepsBucket σ)) (now : ℤ) (v : ℕ) :
    ((receiveSteps s buckets now).1.stepClientIDs = s.stepClientIDs)
    ∧ ((receiveSteps s buckets now).1.steps
        = s.steps ++ ((receiveSteps s buckets now).2.1.map Prod.fst))
    ∧ ((stepsSince (receiveSteps s buckets now).1 v).2
        = s.stepClientIDs.drop v) := by
  refine ⟨?_, ?_, ?_⟩
  · simpa [receiveSteps] using receiveAll_stepClientIDs s buckets
  · simpa [receiveSteps] using receiveAll_steps s buckets
  · simp [receiveSteps, stepsSince, receiveAll_stepClientIDs]

/-- C2: over any sequence of buckets, the step log grows by the
sum of the lengths of the applied (list-valued) bucket payloads,
the version becomes the running maximum of the initial version and
all bucket versions, and the version never decreases. -/
theorem receiveSteps_length_version (s : SyncState σ)
    (buckets : List (StepsBucket σ)) (now : ℤ) :
    ((receiveSteps s buckets now).1.steps.length
      = s.steps.length
        + ((buckets.filterMap StepsBucket.data).map List.length).sum)
    ∧ ((receiveSteps s buckets now).1.version
        = buckets.foldl (fun v b => max v b.version) s.version)
    ∧ (s.version ≤ (receiveSteps s buckets now).1.version) := by
  refine ⟨?_, ?_, ?_⟩
  · simpa [receiveSteps] using receiveAll_length s buckets
  · simpa [receiveSteps] using receiveAll_version s buckets
  · simp only [receiveSteps]
    rw [receiveAll_version]
    exact version_le_foldl_max s.version buckets

/-- C10: a bucket whose payload is not a list still advances the
version when its version is higher, because the version update
precedes the `Array.isArray` check; only the append of its steps
is skipped. -/
theorem receiveSteps_invalid_bucket_advances_version (s : SyncState σ)
    (v sid now : ℤ) (h : s.version < v) :
    ((receiveSteps s [⟨v, sid, none⟩] now).1.version = v)
    ∧ ((receiveSteps s [⟨v, sid, none⟩] now).1.steps = s.steps) := by
  constructor
  · simp only [receiveSteps]
    rw [receiveAll_version]
    simp only [List.foldl_cons, List.foldl_nil]
    omega
  · simp only [receiveSteps]
    rw [receiveAll_steps]
    simp [receiveAll, receiveBucket]

/-- C10, witness at a concrete input. -/
theorem receiveSteps_invalid_bucket_advances_version_witness :
    ((0 : ℤ) < 3)
    ∧ (((receiveSteps (⟨[], [], 0, 5⟩ : SyncState ℕ) [⟨3, 7, none⟩] 9).1.version = 3)
        ∧ ((receiveSteps (⟨[], [], 0, 5⟩ : SyncState ℕ) [⟨3, 7, none⟩] 9).1.steps = [])) :=
  ⟨by decide,
    receiveSteps_invalid_bucket_advances_version
      (⟨[], [], 0, 5⟩ : SyncState ℕ) 3 7 9 (by decide)⟩

/-! ### Claim theorems about `open`, `sendSteps`, `checkIdle` and `close` -/

/-- C3: when the underlying session open rejects, `open` does emit
CONNECTION_FAILED (no response / aborted) or LOAD_ERROR through
`_emitError` — but the `catch` handler returns `undefined`, so
`this.connection` is `undefined`, the following read of
`this.connection.lastSavedVersion` throws a TypeError and the
async `open` rejects across the public boundary, contradicting the
never-throws part of the claim. -/
theorem openService_failure_emits_then_throws (s : SyncState σ) (e : ApiError) :
    (openService s (Except.error e) = OpenOutcome.thrown (emitError e))
    ∧ (emitError e = [Event.error ErrorType.CONNECTION_FAILED]
        ∨ emitError e = [Event.error ErrorType.LOAD_ERROR]) := by
  refine ⟨rfl, ?_⟩
  unfold emitError
  split
  · exact Or.inl rfl
  · exact Or.inr rfl

/-- C4: classification of push failures in the `catch` handler of
`sendSteps`: no response or aborted emits CONNECTION_FAILED; 403
with a document whose `currentVersion` equals the local version
emits PUSH_FAILURE plus a transient notice; 403 with no document
payload emits nothing (log only). -/
theorem sendStepsCatch_classification (v : ℤ) (e : PushError) :
    ((e.response = none ∨ e.code = some "ECONNABORTED") →
      sendStepsCatch v e = [Event.error ErrorType.CONNECTION_FAILED])
    ∧ (∀ r d, e.response = some r → e.code ≠ some "ECONNABORTED" →
        r.status = 403 → r.document = some d → d.currentVersion = v →
        sendStepsCatch v e
          = [Event.error ErrorType.PUSH_FAILURE, Event.notice])
    ∧ (∀ r, e.response = some r → e.code ≠ some "ECONNABORTED" →
        r.status = 403 → r.document = none →
        sendStepsCatch v e = []) := by
  obtain ⟨resp, code⟩ := e
  refine ⟨?_, ?_, ?_⟩
  · rintro (h | h)
    · simp only at h
      subst h
      rfl
    · simp only at h
      subst h
      cases resp <;> rfl
  · rintro r d hr hcode h403 hdoc hv
    subst hr
    simp only at hcode
    simp [sendStepsCatch, hcode, h403, hdoc, hv]
  · rintro r hr hcode h403 hdoc
    subst hr
    simp only at hcode
    simp [sendStepsCatch, hcode, h403, hdoc]

/-- C4, witness at concrete inputs for each of the three cases. -/
theorem sendStepsCatch_classification_witness :
    (sendStepsCatch 5 ⟨none, none⟩
      = [Event.error ErrorType.CONNECTION_FAILED])
    ∧ (sendStepsCatch 5 ⟨some ⟨403, some ⟨5⟩⟩, none⟩
        = [Event.error ErrorType.PUSH_FAILURE, Event.notice])
    ∧ (sendStepsCatch 5 ⟨some ⟨403, none⟩, none⟩ = []) :=
  ⟨(sendStepsCatch_classification 5 ⟨none, none⟩).1 (Or.inl rfl),
    (sendStepsCatch_classification 5 ⟨some ⟨403, some ⟨5⟩⟩, none⟩).2.1
      ⟨403, some ⟨5⟩⟩ ⟨5⟩ rfl (by simp) rfl rfl rfl,
    (sendStepsCatch_classification 5 ⟨some ⟨403, none⟩, none⟩).2.2
      ⟨403, none⟩ rfl (by simp) rfl rfl⟩

lemma idle_condition (d : ℤ) :
    ((d : ℚ) / 1000 / 60 > 1440) ↔ (86400000 < d) := by
  rw [div_div, gt_iff_lt, lt_div_iff₀ (by norm_num : (0 : ℚ) < 1000 * 60)]
  norm_num
  exact_mod_cast Iff.rfl

/-- C9: `checkIdle` returns true and emits `idle` exactly when the
time since the last step push exceeds the 1440-minute idle
threshold (i.e. exceeds 86400000 ms); otherwise it returns false
and emits nothing. -/
theorem checkIdle_threshold (s : SyncState σ) (now : ℤ) :
    checkIdle s now
      = (if 86400000 < now - s.lastStepPush then (true, [Event.idle])
        else (false, [])) := by
  simp only [checkIdle, IDLE_TIMEOUT]
  by_cases h : 86400000 < now - s.lastStepPush
  · rw [if_pos ((idle_condition _).mpr h), if_pos h]
  · rw [if_neg (fun hc => h ((idle_condition _).mp hc)), if_neg h]

/-- C8: the promise returned by `close()` always settles by
resolving — the underlying `connection.close()` outcome is
irrelevant, its error being swallowed by the `catch` — and it
settles at the `save` event or at the 2000 ms timeout, whichever
comes first. -/
theorem closeService_always_resolves (saveAt : Option ℤ)
    (closeResult : Except String Unit) :
    ((closeService saveAt closeResult).settled = some Settle.resolve)
    ∧ ((closeService saveAt closeResult).atMs
        = match saveAt with
          | some t => min t 2000
          | none => 2000) := by
  rcases saveAt with _ | t
  · rcases closeResult <;>
      simp [closeService, closeOnTimeout, closeOnSave]
  · rcases closeResult <;> by_cases h : t < 2000 <;>
      (simp [closeService, closeOnTimeout, closeOnSave, h]; omega)

/-! ### Claim theorems about the polling backend -/

/-- A fetch failure that hits the no-response / aborted branch of
`_handleError`. -/
def isNetworkFailure (e : FetchError) : Prop :=
  e.response = none ∨ e.code = some "ECONNABORTED"

/-- Number of CONNECTION_FAILED error events in a list. -/
def countConnFailed (evs : List Event) : ℕ :=
  evs.count (Event.error ErrorType.CONNECTION_FAILED)

lemma countConnFailed_append (xs ys : List Event) :
    countConnFailed (xs ++ ys) = countConnFailed xs + countConnFailed ys :=
  List.count_append _ _ _

lemma countConnFailed_nil : countConnFailed [] = 0 := rfl

lemma countConnFailed_connFailed :
    countConnFailed [Event.error ErrorType.CONNECTION_FAILED] = 1 := by decide

lemma handleError_network (b : BackendState) (e : FetchError)
    (h : isNetworkFailure e) : handleError b e = handleErrorNetwork b := by
  rcases h with h | h
  · simp [handleError, h]
  · unfold handleError
    cases hr : e.response
    · rfl
    · simp [h]

lemma runFailures_network (b : BackendState) (es : List FetchError)
    (h : ∀ e ∈ es, isNetworkFailure e) :
    ((runFailures b es).1.fetchRetryCounter = b.fetchRetryCounter + es.length)
    ∧ (countConnFailed (runFailures b es).2
        = (b.fetchRetryCounter + es.length)
            - max b.fetchRetryCounter MAX_RETRY_FETCH_COUNT) := by
  induction es generalizing b with
  | nil =>
    constructor
    · simp [runFailures]
    · simp only [runFailures, List.length_nil, countConnFailed_nil]
      omega
  | cons e es ih =>
    have hnet := h e (by simp)
    have hrest : ∀ x ∈ es, isNetworkFailure x := fun x hx => h x (by simp [hx])
    simp only [runFailures, handleError_network _ _ hnet]
    unfold handleErrorNetwork
    obtain ⟨ih1, ih2⟩ :=
      ih { b with fetchRetryCounter := b.fetchRetryCounter + 1 } hrest
    simp only at ih1 ih2
    by_cases hc : b.fetchRetryCounter ≥ MAX_RETRY_FETCH_COUNT
    · rw [if_pos hc]
      simp only [List.length_cons, countConnFailed_append, ih1, ih2,
        countConnFailed_connFailed]
      simp only [MAX_RETRY_FETCH_COUNT] at hc ⊢
      omega
    · rw [if_neg hc]
      simp only [List.length_cons, countConnFailed_append, ih1, ih2,
        countConnFailed_nil]
      simp only [MAX_RETRY_FETCH_COUNT] at hc ⊢
      omega

/-- C5: starting from a reset retry counter, a run of consecutive
no-response / aborted fetch failures emits no CONNECTION_FAILED
during the first 5 failures, and the 6th failure emits it exactly
once. -/
theorem fetchFailures_retry_threshold (b : BackendState)
    (es : List FetchError) (h0 : b.fetchRetryCounter = 0)
    (hnet : ∀ e ∈ es, isNetworkFailure e) (h6 : es.length = 6) :
    (countConnFailed (runFailures b (es.take 5)).2 = 0)
    ∧ (countConnFailed (runFailures b es).2 = 1) := by
  have h5 : ∀ e ∈ es.take 5, isNetworkFailure e :=
    fun e he => hnet e (List.take_subset 5 es he)
  obtain ⟨-, c1⟩ := runFailures_network b (es.take 5) h5
  obtain ⟨-, c2⟩ := runFailures_network b es hnet
  have hlen : (es.take 5).length = 5 := by
    rw [List.length_take]
    omega
  refine ⟨?_, ?_⟩
  · rw [c1, hlen, h0]
    simp [MAX_RETRY_FETCH_COUNT]
  · rw [c2, h6, h0]
    simp [MAX_RETRY_FETCH_COUNT]

/-- C5, witness: six concrete no-response failures from a fresh
backend state. -/
theorem fetchFailures_retry_threshold_witness :
    (countConnFailed
      (runFailures ⟨300, 0, 0, false, false, true⟩
        ((List.replicate 6 (⟨none, none⟩ : FetchError)).take 5)).2 = 0)
    ∧ (countConnFailed
        (runFailures ⟨300, 0, 0, false, false, true⟩
          (List.replicate 6 (⟨none, none⟩ : FetchError))).2 = 1) :=
  fetchFailures_retry_threshold ⟨300, 0, 0, false, false, true⟩
    (List.replicate 6 ⟨none, none⟩) rfl
    (fun e he => by
      rw [List.eq_of_mem_replicate he]
      exact Or.inl rfl)
    rfl

/-- C6: on an empty-steps response that is not idle, the cadence
is set directly to 5000 ms when fewer than 2 collaborators are
alive, and is doubled with a 5000 ms cap otherwise. -/
theorem handleResponse_cadence (st : FullState σ) (r : SyncResponse σ)
    (now : ℤ) (hempty : r.steps = [])
    (hidle : (checkIdle st.sync now).1 = false) :
    ((aliveSessions r.sessions now).length < 2 →
      (handleResponse st r now).1.backend.fetchInterval = 5000)
    ∧ (2 ≤ (aliveSessions r.sessions now).length →
      (handleResponse st r now).1.backend.fetchInterval
        = min (st.backend.fetchInterval * 2) 5000) := by
  constructor
  · intro halive
    simp [handleResponse, hempty, hidle, halive, maximumRefetchTimer,
      FETCH_INTERVAL_SINGLE_EDITOR, apply_ite BackendState.fetchInterval]
  · intro halive
    have hge : ¬ (aliveSessions r.sessions now).length < 2 := by omega
    simp [handleResponse, hempty, hidle, hge, increaseRefetchTimer,
      FETCH_INTERVAL_MAX, apply_ite BackendState.fetchInterval]

/-- C6, witness: one alive collaborator gives the single-editor
cadence; two alive collaborators double the 300 ms cadence. -/
theorem handleResponse_cadence_witness :
    ((handleResponse
        (⟨⟨[], [], 0, 0⟩, ⟨300, 0, 0, true, false, true⟩⟩ : FullState ℕ)
        ⟨⟨0, 0⟩, [⟨0⟩], []⟩ 0).1.backend.fetchInterval = 5000)
    ∧ ((handleResponse
        (⟨⟨[], [], 0, 0⟩, ⟨300, 0, 0, true, false, true⟩⟩ : FullState ℕ)
        ⟨⟨0, 0⟩, [⟨0⟩, ⟨0⟩], []⟩ 0).1.backend.fetchInterval
          = min (300 * 2) 5000) :=
  ⟨(handleResponse_cadence
      (⟨⟨[], [], 0, 0⟩, ⟨300, 0, 0, true, false, true⟩⟩ : FullState ℕ)
      ⟨⟨0, 0⟩, [⟨0⟩], []⟩ 0 rfl (by norm_num [checkIdle, IDLE_TIMEOUT])).1
      (by decide),
    (handleResponse_cadence
      (⟨⟨[], [], 0, 0⟩, ⟨300, 0, 0, true, false, true⟩⟩ : FullState ℕ)
      ⟨⟨0, 0⟩, [⟨0⟩, ⟨0⟩], []⟩ 0 rfl (by norm_num [checkIdle, IDLE_TIMEOUT])).2
      (by decide)⟩

/-- C7: a response with an empty steps array leaves the sync
service state — in particular the step log and the version —
unchanged; only the backend's bookkeeping may change. -/
theorem handleResponse_empty_frame (st : FullState σ) (r : SyncResponse σ)
    (now : ℤ) (hempty : r.steps = []) :
    ((handleResponse st r now).1.sync.steps = st.sync.steps)
    ∧ ((handleResponse st r now).1.sync.version = st.sync.version)
    ∧ ((handleResponse st r now).1.sync = st.sync) := by
  have hsync : (handleResponse st r now).1.sync = st.sync := by
    by_cases hci : (checkIdle st.sync now).1 <;>
      simp [handleResponse, hempty, hci]
  exact ⟨by rw [hsync], by rw [hsync], hsync⟩

/-- C7, witness at a concrete empty-steps response. -/
theorem handleResponse_empty_frame_witness :
    ((handleResponse
        (⟨⟨[5], [], 3, 0⟩, ⟨300, 0, 0, true, false, true⟩⟩ : FullState ℕ)
        ⟨⟨0, 0⟩, [], []⟩ 0).1.sync.steps = [5])
    ∧ ((handleResponse
        (⟨⟨[5], [], 3, 0⟩, ⟨300, 0, 0, true, false, true⟩⟩ : FullState ℕ)
        ⟨⟨0, 0⟩, [], []⟩ 0).1.sync.version = 3)
    ∧ ((handleResponse
        (⟨⟨[5], [], 3, 0⟩, ⟨300, 0, 0, true, false, true⟩⟩ : FullState ℕ)
        ⟨⟨0, 0⟩, [], []⟩ 0).1.sync = ⟨[5], [], 3, 0⟩) :=
  handleResponse_empty_frame
    (⟨⟨[5], [], 3, 0⟩, ⟨300, 0, 0, true, false, true⟩⟩ : FullState ℕ)
    ⟨⟨0, 0⟩, [], []⟩ 0 rfl

end TextSync
